import Mathlib

/-!
Verification of the thermostat-render billing-estimation scripts.

Shallow embedding of `src/bowling_green_wna.py` and
`src/estimate_jan_bill.py`.  Python floats are modelled as rationals
(the claims are stated over real numbers; the arithmetic structure of
every formula is preserved exactly).  Python's `ZeroDivisionError` on a
float division is modelled by returning `none` from an `Option`-valued
function wherever the source divides without a zero guard.
-/

namespace ThermostatRender

/-! ### bowling_green_wna.py -/

/-- `calculate_wna_factor_mcf(R, HSF, BL, NDD, ADD)`
(src/bowling_green_wna.py lines 65-82): guard `NDD == ADD -> 0.0`,
guard zero denominator `-> 0.0`, else `R * (HSF*(NDD-ADD)) / (BL + HSF*ADD)`. -/
def calculate_wna_factor_mcf (R HSF BL NDD ADD : ℚ) : ℚ :=
  if NDD = ADD then 0
  else if BL + HSF * ADD = 0 then 0
  else R * (HSF * (NDD - ADD) / (BL + HSF * ADD))

/-- Python `round(x, n)`: round half to even at `n` decimal digits.
`roundHalfEven` is the integer rounding; ties go to the even integer. -/
def roundHalfEven (q : ℚ) : ℤ :=
  if q - ⌊q⌋ < 1/2 then ⌊q⌋
  else if 1/2 < q - ⌊q⌋ then ⌊q⌋ + 1
  else if ⌊q⌋ % 2 = 0 then ⌊q⌋ else ⌊q⌋ + 1

/-- Python `round(q, n)` on our rational model of floats. -/
def pyRound (q : ℚ) (n : ℕ) : ℚ :=
  (roundHalfEven (q * 10 ^ n) : ℚ) / 10 ^ n

/-- Constants of `KY_RESIDENTIAL` (Mcf basis) and the riders/base charge. -/
def KY_R : ℚ := 1.6261
def KY_HSF_mcf : ℚ := 0.012576
def KY_BL_mcf : ℚ := 1.0556
def BASE_CHARGE_MONTHLY : ℚ := 25.00
def RIDERS_PRP : ℚ := 0.8214

/-- Narrative classification in `calculate_bill`'s weather branch. -/
inductive WeatherStatus
  | colderThanNormal
  | warmerThanNormal
  | normalWeather
deriving DecidableEq, Repr

/-- The dictionary returned by `calculate_bill`
(src/bowling_green_wna.py lines 161-175).  The two narrative strings are
modelled by the single `weather_status` discriminator that selects them. -/
structure BillResult where
  usage_mcf : ℚ
  usage_ccf : ℚ
  base_charge : ℚ
  distribution_volumetric : ℚ
  wnaf_per_mcf : ℚ
  wna_amount : ℚ
  prp_amount : ℚ
  total_distribution : ℚ
  NDD : ℚ
  ADD : ℚ
  HDD_difference : ℚ
  weather_status : WeatherStatus
deriving DecidableEq, Repr

/-- `calculate_bill(usage_mcf, NDD, ADD, winter_month)`
(src/bowling_green_wna.py lines 105-175). -/
def calculate_bill (usage_mcf NDD ADD : ℚ) (winter_month : Bool) : BillResult :=
  let base_charge := BASE_CHARGE_MONTHLY
  let distribution_volumetric := usage_mcf * KY_R
  let wnaf :=
    if winter_month then calculate_wna_factor_mcf KY_R KY_HSF_mcf KY_BL_mcf NDD ADD
    else 0
  let wna_amount := if winter_month then wnaf * usage_mcf else 0
  let prp_amount := usage_mcf * RIDERS_PRP
  let total_riders := prp_amount
  let total_distribution := base_charge + distribution_volumetric + wna_amount + total_riders
  let weather_status :=
    if NDD < ADD then WeatherStatus.colderThanNormal
    else if ADD < NDD then WeatherStatus.warmerThanNormal
    else WeatherStatus.normalWeather
  { usage_mcf := usage_mcf
    usage_ccf := usage_mcf * 10
    base_charge := pyRound base_charge 2
    distribution_volumetric := pyRound distribution_volumetric 2
    wnaf_per_mcf := pyRound wnaf 6
    wna_amount := pyRound wna_amount 2
    prp_amount := pyRound prp_amount 2
    total_distribution := pyRound total_distribution 2
    NDD := NDD
    ADD := ADD
    HDD_difference := ADD - NDD
    weather_status := weather_status }

/-! ### estimate_jan_bill.py — degree-day calculator -/

/-- Sum/extrema helpers for Python's `sum`, `max(list)`, `min(list)`
(the latter two are only ever applied to non-empty lists in the source;
on `[]` we return `0`, matching the guarded use sites). -/
def listMax : List ℚ → ℚ
  | [] => 0
  | t :: ts => ts.foldl max t

def listMin : List ℚ → ℚ
  | [] => 0
  | t :: ts => ts.foldl min t

/-- `calculate_hourly_hdd(temps)` (src/estimate_jan_bill.py lines 82-93):
fewer than 20 samples (including the empty list) yields `None`; otherwise
the mean over samples of `max(0, 65 - temp)`.  (Line 90 of the source
computes the same value times `24/24` and is immediately overwritten by
line 92.) -/
def calculate_hourly_hdd (temps : List ℚ) : Option ℚ :=
  if temps.length < 20 then none
  else some ((temps.map (fun t => max 0 (65 - t))).sum / temps.length)

/-- Arithmetic mean of a sample list (the spec's `mean(samples)`). -/
def listMean (temps : List ℚ) : ℚ := temps.sum / temps.length

/-! ### estimate_jan_bill.py — January-cycle constants and inline WNA -/

/-- Hardcoded constants of the January pipeline (lines 196, 328-339).
`billing_days = (billing_end_date - billing_start_date).days + 1` is the
calendar span 2025-12-12 .. 2026-01-13, i.e. 32 + 1 days. -/
def ccf_per_hdd : ℚ := 0.12
def jan_R : ℚ := 1.6261
def jan_HSF : ℚ := 0.012576
def jan_BL : ℚ := 1.0556
def billing_days : ℕ := 32 + 1
def ndd_daily : ℚ := 24
def jan_NDD : ℚ := billing_days * ndd_daily

/-- The inline WNA-factor computation of the January pipeline
(src/estimate_jan_bill.py line 347):
`wnaf = R * (HSF * (NDD - ADD)) / (BL + (HSF * ADD))` with no guards.
A zero denominator raises `ZeroDivisionError` in Python, modelled as
`none`. -/
def wnafInline (ADD : ℚ) : Option ℚ :=
  if jan_BL + jan_HSF * ADD = 0 then none
  else some (jan_R * (jan_HSF * (jan_NDD - ADD)) / (jan_BL + jan_HSF * ADD))

/-! ### estimate_jan_bill.py — usage projection -/

/-- `actual_ccf_so_far = float(meter_latest) - meter_dec_11` (line 291).
No validation: a latest reading below the cycle-start reference produces
a negative delta, unchanged. -/
def actual_ccf_so_far (meter_latest meter_dec_11 : ℚ) : ℚ :=
  meter_latest - meter_dec_11

/-- `total_ccf_exact = actual_ccf_so_far + remaining_ccf` (line 298). -/
def total_ccf_exact (meter_latest meter_dec_11 remaining_ccf : ℚ) : ℚ :=
  actual_ccf_so_far meter_latest meter_dec_11 + remaining_ccf

/-- Python's `int()` on a float: truncation toward zero (line 299). -/
def pyInt (q : ℚ) : ℤ := if 0 ≤ q then ⌊q⌋ else ⌈q⌉

/-- `total_ccf_int = int(total_ccf_exact)` (line 299). -/
def total_ccf_int (q : ℚ) : ℤ := pyInt q

/-- `estimated_meter_low = int(meter_dec_11 + total_ccf_int)` (line 302);
both operands are integers, so `int()` is the identity. -/
def estimated_meter_low (meter_dec_11 t : ℤ) : ℤ := meter_dec_11 + t

/-- `estimated_meter_high = int(meter_dec_11 + total_ccf_int + 1)` (line 303). -/
def estimated_meter_high (meter_dec_11 t : ℤ) : ℤ := meter_dec_11 + t + 1

/-! ### estimate_jan_bill.py — calendar iteration

Calendar days are modelled as integer day ordinals (consecutive civil
days map to consecutive integers; `+ timedelta(days=1)` is `+ 1`). -/

/-- Structural core of the day iteration: `fuel` counts the iterations
left, so `dateLoopAux (e + 1 - cur).toNat cur` enumerates `cur .. e`. -/
def dateLoopAux : ℕ → ℤ → List ℤ
  | 0, _ => []
  | fuel + 1, cur => cur :: dateLoopAux fuel (cur + 1)

/-- The `while current_date <= end: ... current_date += timedelta(days=1)`
iteration pattern: the list of days from `cur` to `e` inclusive. -/
def dateLoop (e : ℤ) (cur : ℤ) : List ℤ :=
  dateLoopAux (e + 1 - cur).toNat cur

/-- Days of the main HDD loop (lines 221-260) classified as already
elapsed: the branch condition `current_date < today`. -/
def elapsedDays (s e a : ℤ) : List ℤ :=
  (dateLoop e s).filter (fun d => d < a)

/-- Days of the remaining-CCF loop (lines 268-280): `current_date = today`
then `while current_date <= billing_end_date`.  Note: not clipped to the
cycle start. -/
def remainingDays (e a : ℤ) : List ℤ := dateLoop e a

/-! ### estimate_jan_bill.py — HDD source resolution (main loop, lines 221-260)

The IEM dict `hourly_data` and the NWS dict `forecast_data` are modelled
as optional partial maps on day ordinals (`none` for the whole map models
a fetch failure, where the Python name is `None`, or an empty dict, both
falsy; `none` per day models a missing key).  The main loop builds its
lookup key with the same `"%Y-%m-%d"` format the dicts are keyed by, so
the string round-trip is the identity and is elided here. -/

/-- Provenance tags printed by the main loop:
`"IEM"`, `"IEM*"` (partial hourly data), `"NWS"`, `"Est"`. -/
inductive Source
  | iem
  | iemDegraded
  | nws
  | est
deriving DecidableEq, Repr

/-- One resolved day of the cycle. -/
structure DayHDD where
  date : ℤ
  hdd : ℚ
  source : Source
deriving DecidableEq, Repr

/-- A per-day entry of `daily_forecasts`: `{"high": ..., "low": ...}`,
either side possibly `None`. -/
structure ForecastEntry where
  high : Option ℚ
  low : Option ℚ
deriving DecidableEq, Repr

/-- Python truthiness of a float-or-None field (`fc["high"]`):
`None` and `0.0` are falsy. -/
def truthy : Option ℚ → Bool
  | none => false
  | some x => decide (x ≠ 0)

/-- Lookup through an optional map: `hourly_data and date_str in hourly_data`. -/
def mapAt {α : Type} (m : Option (ℤ → Option α)) (d : ℤ) : Option α :=
  match m with
  | none => none
  | some f => f d

/-- The forecast arm of the main loop (lines 237-253): shared by the
`elif`/`else` chain once the hourly branch has not fired. -/
def resolveForecastDay (forecast : Option (ℤ → Option ForecastEntry)) (d : ℤ) : DayHDD :=
  match mapAt forecast d with
  | some fc =>
    if truthy fc.high && truthy fc.low then
      { date := d
        hdd := max 0 (65 - (fc.high.getD 0 + fc.low.getD 0) / 2)
        source := Source.nws }
    else { date := d, hdd := 25, source := Source.est }
  | none => { date := d, hdd := 25, source := Source.est }

/-- The per-day body of the main loop (lines 225-253).  In the 20-plus
branch the guard makes `calculate_hourly_hdd` return `some`, so `getD 0`
never supplies its default. -/
def resolveDay (today : ℤ) (hourly : Option (ℤ → Option (List ℚ)))
    (forecast : Option (ℤ → Option ForecastEntry)) (d : ℤ) : DayHDD :=
  if d < today then
    match mapAt hourly d with
    | some temps =>
      if 20 ≤ temps.length then
        { date := d, hdd := (calculate_hourly_hdd temps).getD 0, source := Source.iem }
      else
        { date := d
          hdd := if temps = [] then 0 else max 0 (65 - (listMax temps + listMin temps) / 2)
          source := Source.iemDegraded }
    | none => resolveForecastDay forecast d
  else resolveForecastDay forecast d

/-- The whole main loop: one `DayHDD` per calendar day of the cycle. -/
def resolveCycle (s e today : ℤ) (hourly : Option (ℤ → Option (List ℚ)))
    (forecast : Option (ℤ → Option ForecastEntry)) : List DayHDD :=
  (dateLoop e s).map (resolveDay today hourly forecast)

/-! ### estimate_jan_bill.py — date-string formats and `calculate_future_hdd`

Python strings are modelled as lists of characters.  `strftime` is
modelled by explicit decimal formatting. -/

/-- The decimal digit character for `n % 10` (codes 48-57). -/
def digitChar (n : ℕ) : Char := Char.ofNat (48 + n % 10)

/-- Decimal digits of `n`, most significant first, with fuel. -/
def natDigitsAux : ℕ → ℕ → List Char
  | 0, _ => []
  | fuel + 1, n =>
    if n < 10 then [digitChar n]
    else natDigitsAux fuel (n / 10) ++ [digitChar (n % 10)]

/-- Decimal digits of `n` (`n + 1` fuel always suffices). -/
def natDigits (n : ℕ) : List Char := natDigitsAux (n + 1) n

/-- strftime's zero-padded two-digit field (`%m`, `%d`). -/
def pad2 (n : ℕ) : List Char :=
  if n < 10 then '0' :: natDigits n else natDigits n

/-- `strftime("%Y-%m-%d")` — the key format of both upstream dicts. -/
def fmtYmd (y m d : ℕ) : List Char :=
  natDigits y ++ '-' :: (pad2 m ++ '-' :: pad2 d)

/-- `strftime("%m/%d")` — the key format `calculate_future_hdd` looks up. -/
def fmtMd (m d : ℕ) : List Char :=
  pad2 m ++ '/' :: pad2 d

/-- A calendar date as carried by the loop variables. -/
structure Date where
  year : ℕ
  month : ℕ
  day : ℕ
deriving DecidableEq, Repr

/-- One NWS forecast period (lines 114-126): its start date, its
temperature and its day/night flag. -/
structure Period where
  year : ℕ
  month : ℕ
  day : ℕ
  temperature : ℚ
  isDaytime : Bool
deriving DecidableEq, Repr

/-- `daily_forecasts[date_key]["high"/"low"] = temp`, creating the entry
when absent (lines 120-126); insertion order preserved. -/
def upsertPeriod (k : List Char) (p : Period) :
    List (List Char × ForecastEntry) → List (List Char × ForecastEntry)
  | [] =>
    [(k, if p.isDaytime then { high := some p.temperature, low := none }
         else { high := none, low := some p.temperature })]
  | (k', fc) :: rest =>
    if k = k' then
      (k', if p.isDaytime then { fc with high := some p.temperature }
           else { fc with low := some p.temperature }) :: rest
    else (k', fc) :: upsertPeriod k p rest

/-- The "fill in missing lows" pass (lines 129-131): synthesize
`low := high - 20` when the low is `None` and the high is truthy. -/
def fillLow (fc : ForecastEntry) : ForecastEntry :=
  match fc.low with
  | none => if truthy fc.high then { fc with low := some (fc.high.getD 0 - 20) } else fc
  | some _ => fc

/-- `get_nws_forecast` (lines 96-137), modelled from the parsed period
list onward: builds `daily_forecasts` keyed by `"%Y-%m-%d"` and fills
missing lows.  (The HTTP fetch and JSON decoding are I/O around this.) -/
def get_nws_forecast (periods : List Period) : List (List Char × ForecastEntry) :=
  let dict := periods.foldl
    (fun acc p => upsertPeriod (fmtYmd p.year p.month p.day) p acc) []
  dict.map (fun kv => (kv.1, fillLow kv.2))

/-- Python `date_key in forecast_data` plus the access: first-match
association lookup. -/
def lookupKey (l : List (List Char × ForecastEntry)) (k : List Char) : Option ForecastEntry :=
  match l with
  | [] => none
  | (k', v) :: rest => if k = k' then some v else lookupKey rest k

/-- One appended row of `calculate_future_hdd`'s result list. -/
structure FutureDay where
  date : List Char
  high : ℚ
  low : ℚ
  avg : ℚ
  hdd : ℚ
deriving DecidableEq, Repr

/-- `calculate_future_hdd(forecast_data, start_date, end_date)`
(lines 140-161).  The `while current <= end` calendar enumeration is
abstracted as the input list `days` (the theorems hold for every list of
dates, hence for the calendar range). -/
def calculate_future_hdd (forecast_data : List (List Char × ForecastEntry))
    (days : List Date) : List FutureDay :=
  days.foldr
    (fun dt acc =>
      match lookupKey forecast_data (fmtMd dt.month dt.day) with
      | some fc =>
        if truthy fc.high && truthy fc.low then
          let hi := fc.high.getD 0
          let lo := fc.low.getD 0
          let avg := (hi + lo) / 2
          { date := fmtMd dt.month dt.day, high := hi, low := lo
            avg := avg, hdd := max 0 (65 - avg) } :: acc
        else acc
      | none => acc)
    []

/-! ## Helper lemmas -/

theorem mem_dateLoopAux (fuel : ℕ) (cur d : ℤ) :
    d ∈ dateLoopAux fuel cur ↔ cur ≤ d ∧ d < cur + fuel := by
  induction fuel generalizing cur with
  | zero => simp [dateLoopAux]
  | succ n ih =>
    simp only [dateLoopAux, List.mem_cons, ih]
    omega

theorem mem_dateLoop (e cur d : ℤ) : d ∈ dateLoop e cur ↔ cur ≤ d ∧ d ≤ e := by
  unfold dateLoop
  rw [mem_dateLoopAux]
  omega

theorem pairwise_dateLoopAux (fuel : ℕ) (cur : ℤ) :
    (dateLoopAux fuel cur).Pairwise (· < ·) := by
  induction fuel generalizing cur with
  | zero => simp [dateLoopAux]
  | succ n ih =>
    refine List.Pairwise.cons ?_ (ih (cur + 1))
    intro d hd
    have := (mem_dateLoopAux n (cur + 1) d).mp hd
    omega

theorem pairwise_dateLoop (e cur : ℤ) : (dateLoop e cur).Pairwise (· < ·) :=
  pairwise_dateLoopAux _ _

theorem length_dateLoopAux (fuel : ℕ) (cur : ℤ) : (dateLoopAux fuel cur).length = fuel := by
  induction fuel generalizing cur with
  | zero => rfl
  | succ n ih => simp [dateLoopAux, ih]

theorem dateLoop_nil {e cur : ℤ} (h : e < cur) : dateLoop e cur = [] := by
  unfold dateLoop
  have : (e + 1 - cur).toNat = 0 := by omega
  rw [this]
  rfl

theorem dateLoop_cons {e cur : ℤ} (h : cur ≤ e) :
    dateLoop e cur = cur :: dateLoop e (cur + 1) := by
  unfold dateLoop
  have h1 : (e + 1 - cur).toNat = (e + 1 - (cur + 1)).toNat + 1 := by omega
  rw [h1]
  rfl

theorem dateLoop_filter_append (e a : ℤ) :
    ∀ s : ℤ, s ≤ a →
      (dateLoop e s).filter (fun d => d < a) ++ dateLoop e a = dateLoop e s := by
  suffices h : ∀ (n : ℕ) (s : ℤ), (e + 1 - s).toNat = n → s ≤ a →
      (dateLoop e s).filter (fun d => d < a) ++ dateLoop e a = dateLoop e s by
    intro s hs
    exact h _ s rfl hs
  intro n
  induction n with
  | zero =>
    intro s hn hs
    have hse : e < s := by omega
    rw [dateLoop_nil hse, dateLoop_nil (by omega : e < a)]
    rfl
  | succ n ih =>
    intro s hn hs
    have hse : s ≤ e := by omega
    rw [dateLoop_cons hse]
    rcases lt_or_eq_of_le hs with hlt | heq
    · have hfilter : (s :: dateLoop e (s + 1)).filter (fun d => d < a) =
          s :: (dateLoop e (s + 1)).filter (fun d => d < a) := by
        simp [List.filter_cons, hlt]
      rw [hfilter, List.cons_append, ih (s + 1) (by omega) (by omega)]
    · subst heq
      have hfilter : (s :: dateLoop e (s + 1)).filter (fun d => d < s) = [] := by
        rw [List.filter_eq_nil_iff]
        intro d hd
        rw [List.mem_cons] at hd
        rcases hd with rfl | h
        · simp
        · have := (mem_dateLoop e (s + 1) d).mp h
          simp only [decide_eq_true_eq]
          omega
      rw [hfilter, List.nil_append, dateLoop_cons hse]

theorem resolveForecastDay_date (forecast : Option (ℤ → Option ForecastEntry)) (d : ℤ) :
    (resolveForecastDay forecast d).date = d := by
  unfold resolveForecastDay
  cases mapAt forecast d with
  | none => rfl
  | some fc =>
    by_cases h : truthy fc.high && truthy fc.low <;> simp [h]

theorem resolveDay_date (today : ℤ) (hourly : Option (ℤ → Option (List ℚ)))
    (forecast : Option (ℤ → Option ForecastEntry)) (d : ℤ) :
    (resolveDay today hourly forecast d).date = d := by
  unfold resolveDay
  by_cases h : d < today
  · simp only [h, if_true]
    cases mapAt hourly d with
    | none => exact resolveForecastDay_date forecast d
    | some temps =>
      by_cases h2 : 20 ≤ temps.length <;> simp [h2]
  · simp only [h, if_false]
    exact resolveForecastDay_date forecast d

theorem roundHalfEven_eq_of_lt_half {q : ℚ} {n : ℤ} (h1 : (n : ℚ) ≤ q)
    (h2 : q < n + 1/2) : roundHalfEven q = n := by
  have hf : ⌊q⌋ = n := Int.floor_eq_iff.mpr ⟨h1, by linarith⟩
  unfold roundHalfEven
  rw [hf, if_pos (by linarith)]

theorem roundHalfEven_eq_of_gt_half {q : ℚ} {n : ℤ} (h1 : (n : ℚ) - 1/2 < q)
    (h2 : q < n) : roundHalfEven q = n := by
  have hf : ⌊q⌋ = n - 1 := Int.floor_eq_iff.mpr ⟨by push_cast; linarith, by push_cast; linarith⟩
  unfold roundHalfEven
  rw [hf]
  rw [if_neg (by push_cast; linarith), if_pos (by push_cast; linarith)]
  omega

theorem sum_map_sub_const (l : List ℚ) :
    (l.map (fun t => 65 - t)).sum = l.length * 65 - l.sum := by
  induction l with
  | nil => simp
  | cons h t ih =>
    simp [ih]
    ring

theorem resolveDay_none_none (today d : ℤ) :
    resolveDay today none none d = ⟨d, 25, Source.est⟩ := by
  unfold resolveDay resolveForecastDay mapAt
  split <;> rfl

theorem resolveDay_not_lt (today d : ℤ) (hourly : Option (ℤ → Option (List ℚ)))
    (forecast : Option (ℤ → Option ForecastEntry)) (h : ¬ d < today) :
    resolveDay today hourly forecast d = resolveForecastDay forecast d := by
  unfold resolveDay
  rw [if_neg h]

theorem resolveForecastDay_none {forecast : Option (ℤ → Option ForecastEntry)} {d : ℤ}
    (h : mapAt forecast d = none) :
    resolveForecastDay forecast d = ⟨d, 25, Source.est⟩ := by
  unfold resolveForecastDay
  rw [h]

/-! ## Claim theorems -/

/-- C1 (counterexample): the January pipeline's inline WNA computation
(line 347 of estimate_jan_bill.py) has no zero-denominator guard: at
`ADD = -(BL / HSF) = -65975/786` the denominator vanishes and the
division raises (`none`) instead of returning `0` as the claim states. -/
theorem C1_counterexample :
    wnafInline (-65975/786) = none ∧ wnafInline (-65975/786) ≠ some 0 := by
  have h : jan_BL + jan_HSF * (-65975/786 : ℚ) = 0 := by
    norm_num [jan_BL, jan_HSF]
  have h2 : wnafInline (-65975/786) = none := by
    unfold wnafInline
    rw [if_pos h]
  exact ⟨h2, by simp [h2]⟩

/-- C1 (amended): `calculate_wna_factor_mcf` satisfies all three clauses
of the claim for all rational inputs; the January-cycle inline
computation has no guards, but for every `ADD` that makes the
denominator nonzero — in particular every `ADD ≥ 0`, the only values the
pipeline's non-negative HDD totals can produce — it returns exactly the
value of `calculate_wna_factor_mcf` at the fixed January constants. -/
theorem C1_wna_factor_formula (R HSF BL NDD ADD : ℚ) :
    (NDD = ADD → calculate_wna_factor_mcf R HSF BL NDD ADD = 0) ∧
    (BL + HSF * ADD = 0 → calculate_wna_factor_mcf R HSF BL NDD ADD = 0) ∧
    (NDD ≠ ADD → BL + HSF * ADD ≠ 0 →
      calculate_wna_factor_mcf R HSF BL NDD ADD =
        R * (HSF * (NDD - ADD)) / (BL + HSF * ADD)) ∧
    (0 ≤ ADD →
      wnafInline ADD = some (calculate_wna_factor_mcf jan_R jan_HSF jan_BL jan_NDD ADD)) := by
  refine ⟨?_, ?_, ?_, ?_⟩
  · intro h
    simp [calculate_wna_factor_mcf, h]
  · intro h
    unfold calculate_wna_factor_mcf
    by_cases h1 : NDD = ADD <;> simp [h1, h]
  · intro h1 h2
    unfold calculate_wna_factor_mcf
    rw [if_neg h1, if_neg h2]
    ring
  · intro hA
    have hden : jan_BL + jan_HSF * ADD ≠ 0 := by
      have h1 : (0 : ℚ) < jan_BL := by norm_num [jan_BL]
      have h2 : (0 : ℚ) ≤ jan_HSF * ADD := by
        have : (0 : ℚ) ≤ jan_HSF := by norm_num [jan_HSF]
        exact mul_nonneg this hA
      have h3 : (0 : ℚ) < jan_BL + jan_HSF * ADD := by linarith
      exact h3.ne'
    unfold wnafInline calculate_wna_factor_mcf
    rw [if_neg hden]
    by_cases h1 : jan_NDD = ADD
    · rw [if_pos h1, h1]
      norm_num
    · rw [if_neg h1, if_neg hden]
      congr 1
      ring

/-- C1 (witness): the amended theorem applied at `ADD = 0`. -/
theorem C1_wna_factor_formula_witness :
    (0 : ℚ) ≤ 0 ∧
      wnafInline 0 = some (calculate_wna_factor_mcf jan_R jan_HSF jan_BL jan_NDD 0) :=
  ⟨by norm_num, (C1_wna_factor_formula jan_R jan_HSF jan_BL jan_NDD 0).2.2.2 (by norm_num)⟩

/-- C5: the sign law.  For strictly positive `R`, `HSF`, `BL` and
non-negative `NDD`, `ADD`: colder than normal (`ADD > NDD`) yields a
non-positive factor (credit), warmer (`ADD < NDD`) a non-negative one
(surcharge). -/
theorem C5_sign_law (R HSF BL NDD ADD : ℚ) (hR : 0 < R) (hH : 0 < HSF) (hB : 0 < BL)
    (hN : 0 ≤ NDD) (hA : 0 ≤ ADD) :
    (NDD < ADD → calculate_wna_factor_mcf R HSF BL NDD ADD ≤ 0) ∧
    (ADD < NDD → 0 ≤ calculate_wna_factor_mcf R HSF BL NDD ADD) := by
  have hden : (0 : ℚ) < BL + HSF * ADD := by
    have : (0 : ℚ) ≤ HSF * ADD := mul_nonneg hH.le hA
    linarith
  constructor
  · intro hlt
    unfold calculate_wna_factor_mcf
    rw [if_neg (ne_of_lt hlt), if_neg hden.ne']
    have hnum : HSF * (NDD - ADD) ≤ 0 :=
      mul_nonpos_of_nonneg_of_nonpos hH.le (by linarith)
    have hdiv : HSF * (NDD - ADD) / (BL + HSF * ADD) ≤ 0 :=
      div_nonpos_of_nonpos_of_nonneg hnum hden.le
    exact mul_nonpos_of_nonneg_of_nonpos hR.le hdiv
  · intro hlt
    unfold calculate_wna_factor_mcf
    rw [if_neg (ne_of_gt hlt), if_neg hden.ne']
    have hnum : 0 ≤ HSF * (NDD - ADD) :=
      mul_nonneg hH.le (by linarith)
    have hdiv : 0 ≤ HSF * (NDD - ADD) / (BL + HSF * ADD) :=
      div_nonneg hnum hden.le
    exact mul_nonneg hR.le hdiv

/-- C5 (witness): the sign law applied at `R = HSF = BL = 1`,
`NDD = 0`, `ADD = 1` (factor `-1/2`) and at `NDD = 1`, `ADD = 0`
(factor `1`). -/
theorem C5_sign_law_witness :
    (0 : ℚ) < 1 ∧
      calculate_wna_factor_mcf 1 1 1 0 1 ≤ 0 ∧
      0 ≤ calculate_wna_factor_mcf 1 1 1 1 0 :=
  ⟨by norm_num,
   (C5_sign_law 1 1 1 0 1 (by norm_num) (by norm_num) (by norm_num) (by norm_num)
      (by norm_num)).1 (by norm_num),
   (C5_sign_law 1 1 1 1 0 (by norm_num) (by norm_num) (by norm_num) (by norm_num)
      (by norm_num)).2 (by norm_num)⟩

/-- C7 (counterexample): at `R = 1.6261`, `HSF = 0.012576`,
`BL = 1.0556`, `NDD = 600`, `ADD = 750`, the code's factor is
`-19171719/65547500 ≈ -0.2925`, strictly above `-3/10` and therefore
nowhere near the claimed `-1.2645`; at `ADD = 450` it is
`19171719/41967500 ≈ 0.4568`, and the two magnitudes differ (the claimed
symmetry fails because the denominator depends on `ADD`). -/
theorem C7_counterexample :
    calculate_wna_factor_mcf 1.6261 0.012576 1.0556 600 750 = -19171719/65547500 ∧
    (-3/10 : ℚ) < -19171719/65547500 ∧
    calculate_wna_factor_mcf 1.6261 0.012576 1.0556 600 450 = 19171719/41967500 ∧
    |calculate_wna_factor_mcf 1.6261 0.012576 1.0556 600 750| ≠
      |calculate_wna_factor_mcf 1.6261 0.012576 1.0556 600 450| := by
  have h750 : calculate_wna_factor_mcf 1.6261 0.012576 1.0556 600 750 =
      -19171719/65547500 := by
    norm_num [calculate_wna_factor_mcf]
  have h450 : calculate_wna_factor_mcf 1.6261 0.012576 1.0556 600 450 =
      19171719/41967500 := by
    norm_num [calculate_wna_factor_mcf]
  refine ⟨h750, by norm_num, h450, ?_⟩
  rw [h750, h450, abs_of_neg (by norm_num), abs_of_pos (by norm_num)]
  norm_num

/-- C7 (amended): with the tariff constants and `NDD = 600`, the factor
at `ADD = 750` is `-19171719/65547500 ≈ -0.2925` (a credit; `wna_amount`
at 5 Mcf rounds to `-1.46`), and at `ADD = 450` it is
`19171719/41967500 ≈ +0.4568` (a surcharge; amount `+2.28`); the two
magnitudes are not equal even though `|NDD - ADD|` is. -/
theorem C7_actual_values :
    calculate_wna_factor_mcf KY_R KY_HSF_mcf KY_BL_mcf 600 750 = -19171719/65547500 ∧
    calculate_wna_factor_mcf KY_R KY_HSF_mcf KY_BL_mcf 600 750 < 0 ∧
    (calculate_bill 5 600 750 true).wna_amount = -146/100 ∧
    calculate_wna_factor_mcf KY_R KY_HSF_mcf KY_BL_mcf 600 450 = 19171719/41967500 ∧
    0 < calculate_wna_factor_mcf KY_R KY_HSF_mcf KY_BL_mcf 600 450 ∧
    (calculate_bill 5 600 450 true).wna_amount = 228/100 ∧
    |calculate_wna_factor_mcf KY_R KY_HSF_mcf KY_BL_mcf 600 750| ≠
      |calculate_wna_factor_mcf KY_R KY_HSF_mcf KY_BL_mcf 600 450| := by
  have h750 : calculate_wna_factor_mcf KY_R KY_HSF_mcf KY_BL_mcf 600 750 =
      -19171719/65547500 := by
    norm_num [calculate_wna_factor_mcf, KY_R, KY_HSF_mcf, KY_BL_mcf]
  have h450 : calculate_wna_factor_mcf KY_R KY_HSF_mcf KY_BL_mcf 600 450 =
      19171719/41967500 := by
    norm_num [calculate_wna_factor_mcf, KY_R, KY_HSF_mcf, KY_BL_mcf]
  have hb750 : (calculate_bill 5 600 750 true).wna_amount =
      pyRound (calculate_wna_factor_mcf KY_R KY_HSF_mcf KY_BL_mcf 600 750 * 5) 2 := rfl
  have hb450 : (calculate_bill 5 600 450 true).wna_amount =
      pyRound (calculate_wna_factor_mcf KY_R KY_HSF_mcf KY_BL_mcf 600 450 * 5) 2 := rfl
  refine ⟨h750, by rw [h750]; norm_num, ?_, h450, by rw [h450]; norm_num, ?_, ?_⟩
  · rw [hb750, h750]
    unfold pyRound
    rw [show (-19171719/65547500 : ℚ) * 5 * 10 ^ 2 = -19171719/131095 by norm_num]
    rw [roundHalfEven_eq_of_gt_half (n := -146) (by norm_num) (by norm_num)]
    norm_num
  · rw [hb450, h450]
    unfold pyRound
    rw [show (19171719/41967500 : ℚ) * 5 * 10 ^ 2 = 19171719/83935 by norm_num]
    rw [roundHalfEven_eq_of_lt_half (n := 228) (by norm_num) (by norm_num)]
    norm_num
  · rw [h750, h450, abs_of_neg (by norm_num), abs_of_pos (by norm_num)]
    norm_num

/-- C10: outside winter months (`winter_month = False`) every monetary
field of `calculate_bill` is independent of the degree-day inputs, and
the WNA amount is exactly zero. -/
theorem C10_nonwinter_independent (usage NDD ADD NDD' ADD' : ℚ) :
    (calculate_bill usage NDD ADD false).base_charge =
      (calculate_bill usage NDD' ADD' false).base_charge ∧
    (calculate_bill usage NDD ADD false).distribution_volumetric =
      (calculate_bill usage NDD' ADD' false).distribution_volumetric ∧
    (calculate_bill usage NDD ADD false).wnaf_per_mcf =
      (calculate_bill usage NDD' ADD' false).wnaf_per_mcf ∧
    (calculate_bill usage NDD ADD false).wna_amount =
      (calculate_bill usage NDD' ADD' false).wna_amount ∧
    (calculate_bill usage NDD ADD false).prp_amount =
      (calculate_bill usage NDD' ADD' false).prp_amount ∧
    (calculate_bill usage NDD ADD false).total_distribution =
      (calculate_bill usage NDD' ADD' false).total_distribution ∧
    (calculate_bill usage NDD ADD false).wna_amount = 0 := by
  refine ⟨rfl, rfl, rfl, rfl, rfl, rfl, ?_⟩
  have h : (calculate_bill usage NDD ADD false).wna_amount = pyRound 0 2 := rfl
  rw [h]
  norm_num [pyRound, roundHalfEven]

/-- C4 (counterexample): 20 hourly samples, ten at 75 °F and ten at
55 °F.  Their mean is exactly 65 °F, so the claimed formula
`max(0, 65 - mean(samples))` gives `0`; the code instead averages the
per-sample deficits `max(0, 65 - t)` and returns `5`. -/
theorem C4_counterexample :
    calculate_hourly_hdd (List.replicate 10 75 ++ List.replicate 10 55) = some 5 ∧
    listMean (List.replicate 10 75 ++ List.replicate 10 55) = 65 ∧
    calculate_hourly_hdd (List.replicate 10 75 ++ List.replicate 10 55) ≠
      some (max 0 (65 - listMean (List.replicate 10 75 ++ List.replicate 10 55))) := by
  have h1 : calculate_hourly_hdd (List.replicate 10 (75 : ℚ) ++ List.replicate 10 55) =
      some 5 := by
    norm_num [calculate_hourly_hdd, List.map_append, List.map_replicate,
      List.sum_append, List.sum_replicate]
  have h2 : listMean (List.replicate 10 (75 : ℚ) ++ List.replicate 10 55) = 65 := by
    norm_num [listMean, List.sum_append, List.sum_replicate]
  refine ⟨h1, h2, ?_⟩
  rw [h1, h2]
  norm_num

/-- C4 (amended): below 20 samples the calculator returns `None`
(`InsufficientData`); at 20 or more it returns the mean over samples of
`max(0, 65 - sample)` — the per-sample heating deficit averaged — which
coincides with the claimed `max(0, 65 - mean(samples))` exactly when no
sample exceeds 65 °F. -/
theorem C4_hourly_hdd (temps : List ℚ) :
    (temps.length < 20 → calculate_hourly_hdd temps = none) ∧
    (20 ≤ temps.length →
      calculate_hourly_hdd temps =
        some ((temps.map (fun t => max 0 (65 - t))).sum / (temps.length : ℚ))) ∧
    (20 ≤ temps.length → (∀ t ∈ temps, t ≤ 65) →
      calculate_hourly_hdd temps = some (max 0 (65 - listMean temps))) := by
  refine ⟨?_, ?_, ?_⟩
  · intro h
    unfold calculate_hourly_hdd
    rw [if_pos h]
  · intro h
    unfold calculate_hourly_hdd
    rw [if_neg (by omega)]
  · intro h hle
    unfold calculate_hourly_hdd
    rw [if_neg (by omega)]
    have hmap : temps.map (fun t => max 0 (65 - t)) = temps.map (fun t => 65 - t) := by
      apply List.map_congr_left
      intro t ht
      exact max_eq_right (by linarith [hle t ht])
    have hn : (0 : ℚ) < temps.length := by
      have : 0 < temps.length := by omega
      exact_mod_cast this
    have hsum : temps.sum ≤ temps.length * 65 := by
      calc temps.sum ≤ temps.length • (65 : ℚ) := List.sum_le_card_nsmul temps 65 hle
        _ = temps.length * 65 := by rw [nsmul_eq_mul]
    have hmean : listMean temps ≤ 65 := by
      unfold listMean
      rw [div_le_iff₀ hn]
      linarith
    rw [hmap, sum_map_sub_const]
    congr 1
    rw [max_eq_right (by unfold listMean at hmean ⊢; linarith)]
    unfold listMean
    field_simp
    ring

/-- C4 (witness): the amended theorem applied to 20 samples at 60 °F
(all below 65), where both formulas give HDD 5. -/
theorem C4_hourly_hdd_witness :
    20 ≤ (List.replicate 20 (60 : ℚ)).length ∧
      calculate_hourly_hdd (List.replicate 20 (60 : ℚ)) =
        some (max 0 (65 - listMean (List.replicate 20 (60 : ℚ)))) :=
  ⟨by simp, (C4_hourly_hdd (List.replicate 20 (60 : ℚ))).2.2 (by simp)
    (fun t ht => by rw [List.eq_of_mem_replicate ht]; norm_num)⟩

/-- C8: for a non-negative exact usage total, Python's `int()` truncation
agrees with `floor`, the rounding error lies in `[0, 1)`, and the
reported meter range is `[start + rounded, start + rounded + 1)`. -/
theorem C8_usage_rounding (q : ℚ) (start : ℤ) (hq : 0 ≤ q) :
    total_ccf_int q = ⌊q⌋ ∧
    0 ≤ q - (total_ccf_int q : ℚ) ∧
    q - (total_ccf_int q : ℚ) < 1 ∧
    estimated_meter_low start (total_ccf_int q) = start + ⌊q⌋ ∧
    estimated_meter_high start (total_ccf_int q) = start + ⌊q⌋ + 1 := by
  have ht : total_ccf_int q = ⌊q⌋ := by
    unfold total_ccf_int pyInt
    rw [if_pos hq]
  refine ⟨ht, ?_, ?_, ?_, ?_⟩
  · rw [ht]
    have := Int.floor_le q
    linarith
  · rw [ht]
    have := Int.lt_floor_add_one q
    linarith
  · unfold estimated_meter_low
    rw [ht]
  · unfold estimated_meter_high
    rw [ht]

/-- C8 (witness): the theorem applied at `q = 7/2`, `start = 1339`. -/
theorem C8_usage_rounding_witness :
    (0 : ℚ) ≤ 7/2 ∧ total_ccf_int (7/2) = ⌊(7/2 : ℚ)⌋ :=
  ⟨by norm_num, (C8_usage_rounding (7/2) 1339 (by norm_num)).1⟩

/-- C3 (counterexample): with latest reading 1300 below the cycle-start
reference 1339, the script computes `actual_ccf_so_far = -39` and, far
from raising `InvalidMeterDelta`, carries it into
`total_ccf_exact = -29` (here with 10 CCF projected remaining):
the estimate is still produced. -/
theorem C3_counterexample :
    actual_ccf_so_far 1300 1339 = -39 ∧
    actual_ccf_so_far 1300 1339 < 0 ∧
    total_ccf_exact 1300 1339 10 = -29 := by
  refine ⟨?_, ?_, ?_⟩ <;> norm_num [actual_ccf_so_far, total_ccf_exact]

/-- C3 (amended): the script performs no meter-delta validation:
`actual_ccf_so_far` is the raw difference `latest - start`, and when the
latest reading is below the start reference the negative delta is
carried unchanged (not clamped, no error signalled) into the usage
total. -/
theorem C3_no_delta_validation (latest start remaining : ℚ) :
    actual_ccf_so_far latest start = latest - start ∧
    (latest < start →
      actual_ccf_so_far latest start < 0 ∧
      total_ccf_exact latest start remaining = (latest - start) + remaining) := by
  refine ⟨rfl, fun h => ⟨?_, rfl⟩⟩
  unfold actual_ccf_so_far
  linarith

/-- C3 (witness): the amended theorem applied at readings 1300 < 1339
with 10 CCF remaining. -/
theorem C3_no_delta_validation_witness :
    (1300 : ℚ) < 1339 ∧ actual_ccf_so_far 1300 1339 < 0 :=
  ⟨by norm_num, ((C3_no_delta_validation 1300 1339 10).2 (by norm_num)).1⟩

/-- C6 (counterexample): with cycle `[10, 12]` and as-of day `8` (before
the cycle start), the remaining-days loop starts at the as-of day without
clipping to the cycle: it covers `8` and `9`, which are outside
`[start_date, end_date]`, so the union of the two parts does not exactly
cover the cycle as the claim states. -/
theorem C6_counterexample :
    elapsedDays 10 12 8 = [] ∧
    remainingDays 12 8 = [8, 9, 10, 11, 12] ∧
    (8 : ℤ) ∈ remainingDays 12 8 ∧
    (8 : ℤ) ∉ dateLoop 12 10 := by
  refine ⟨by decide, by decide, by decide, by decide⟩

/-- C6 (amended): for every valid cycle (`start ≤ end`) and every as-of
day not before the cycle start (`start ≤ as_of`) — including as-of past
the end, where all days are elapsed — the elapsed/remaining partition is
ordered, disjoint, and covers `[start, end]` exactly, and the as-of day,
when inside the cycle, belongs to the remaining days.  (For `as_of <
start` the remaining loop covers `[as_of, end]`, exceeding the cycle.) -/
theorem C6_partition (s e a : ℤ) (hse : s ≤ e) (hsa : s ≤ a) :
    elapsedDays s e a ++ remainingDays e a = dateLoop e s ∧
    (elapsedDays s e a).Pairwise (· < ·) ∧
    (remainingDays e a).Pairwise (· < ·) ∧
    (∀ d, d ∈ elapsedDays s e a → d ∉ remainingDays e a) ∧
    (∀ d, (d ∈ elapsedDays s e a ∨ d ∈ remainingDays e a) ↔ s ≤ d ∧ d ≤ e) ∧
    (a ≤ e → a ∈ remainingDays e a) := by
  have happ : elapsedDays s e a ++ remainingDays e a = dateLoop e s :=
    dateLoop_filter_append e a s hsa
  refine ⟨happ, ?_, ?_, ?_, ?_, ?_⟩
  · exact (pairwise_dateLoop e s).filter _
  · exact pairwise_dateLoop e a
  · intro d hd hr
    have h1 : d < a := by
      have := List.mem_filter.mp hd
      simpa using this.2
    have h2 : a ≤ d := ((mem_dateLoop e a d).mp hr).1
    omega
  · intro d
    rw [← List.mem_append, happ, mem_dateLoop]
  · intro hae
    exact (mem_dateLoop e a a).mpr ⟨le_refl a, hae⟩

/-- C6 (witness): the amended theorem applied to cycle `[0, 2]` with
as-of day `1`. -/
theorem C6_partition_witness :
    (0 : ℤ) ≤ 2 ∧ (0 : ℤ) ≤ 1 ∧
      elapsedDays 0 2 1 ++ remainingDays 2 1 = dateLoop 2 0 :=
  ⟨by decide, by decide, (C6_partition 0 2 1 (by decide) (by decide)).1⟩

/-- C2: the resolver's main loop yields exactly one `DailyHDD` per
calendar day of `[start, end]`, in order with no gaps, as a total
function of the (possibly absent) sources — source unavailability cannot
abort it.  When both upstream sources are unavailable every day falls
back to the assumed constant 25 HDD; when the forecast covers no
remaining day, every remaining day (`date ≥ today`) falls back to the
assumed constant with degraded provenance. -/
theorem C2_resolver_complete (s e today : ℤ)
    (hourly : Option (ℤ → Option (List ℚ)))
    (forecast : Option (ℤ → Option ForecastEntry)) (hse : s ≤ e) :
    (resolveCycle s e today hourly forecast).map DayHDD.date = dateLoop e s ∧
    (resolveCycle s e today hourly forecast).length = (e + 1 - s).toNat ∧
    (hourly = none → forecast = none →
      ∀ x ∈ resolveCycle s e today hourly forecast,
        x.hdd = 25 ∧ x.source = Source.est) ∧
    ((∀ d, today ≤ d → mapAt forecast d = none) →
      ∀ x ∈ resolveCycle s e today hourly forecast,
        today ≤ x.date → x.hdd = 25 ∧ x.source = Source.est) := by
  refine ⟨?_, ?_, ?_, ?_⟩
  · unfold resolveCycle
    rw [List.map_map]
    have h : ∀ d ∈ dateLoop e s,
        (DayHDD.date ∘ resolveDay today hourly forecast) d = id d := by
      intro d _
      exact resolveDay_date today hourly forecast d
    rw [List.map_congr_left h, List.map_id]
  · unfold resolveCycle dateLoop
    rw [List.length_map]
    exact length_dateLoopAux _ _
  · intro h1 h2 x hx
    subst h1
    subst h2
    obtain ⟨d, _, rfl⟩ := List.mem_map.mp hx
    rw [resolveDay_none_none]
    exact ⟨rfl, rfl⟩
  · intro hf x hx hxd
    obtain ⟨d, _, rfl⟩ := List.mem_map.mp hx
    rw [resolveDay_date] at hxd
    rw [resolveDay_not_lt today d hourly forecast (by omega),
      resolveForecastDay_none (hf d hxd)]
    exact ⟨rfl, rfl⟩

/-- C2 (witness): the theorem applied to the cycle `[0, 1]` with both
sources unavailable. -/
theorem C2_resolver_complete_witness :
    (0 : ℤ) ≤ 1 ∧
      (resolveCycle 0 1 0 none none).map DayHDD.date = dateLoop 1 0 :=
  ⟨by decide, (C2_resolver_complete 0 1 0 none none (by decide)).1⟩

/-! ## Key-format lemmas for C9 -/

theorem digitChar_ne_slash (k : ℕ) : digitChar k ≠ '/' := by
  unfold digitChar
  set r := k % 10 with hr
  have h : r < 10 := Nat.mod_lt _ (by norm_num)
  interval_cases r <;> decide

theorem mem_natDigitsAux {c : Char} :
    ∀ {fuel n : ℕ}, c ∈ natDigitsAux fuel n → ∃ k, c = digitChar k := by
  intro fuel
  induction fuel with
  | zero => intro n h; simp [natDigitsAux] at h
  | succ f ih =>
    intro n h
    unfold natDigitsAux at h
    by_cases hn : n < 10
    · rw [if_pos hn] at h
      simp at h
      exact ⟨n, h⟩
    · rw [if_neg hn] at h
      rcases List.mem_append.mp h with h1 | h1
      · exact ih h1
      · simp at h1
        exact ⟨n % 10, h1⟩

theorem mem_natDigits {c : Char} {n : ℕ} (h : c ∈ natDigits n) : ∃ k, c = digitChar k :=
  mem_natDigitsAux h

theorem mem_pad2 {c : Char} {n : ℕ} (h : c ∈ pad2 n) : ∃ k, c = digitChar k := by
  unfold pad2 at h
  by_cases hn : n < 10
  · rw [if_pos hn] at h
    rw [List.mem_cons] at h
    rcases h with rfl | h
    · exact ⟨0, by decide⟩
    · exact mem_natDigits h
  · rw [if_neg hn] at h
    exact mem_natDigits h

theorem slash_not_mem_fmtYmd (y m d : ℕ) : '/' ∉ fmtYmd y m d := by
  intro h
  unfold fmtYmd at h
  rcases List.mem_append.mp h with h1 | h1
  · obtain ⟨k, hk⟩ := mem_natDigits h1
    exact digitChar_ne_slash k hk.symm
  · rw [List.mem_cons] at h1
    rcases h1 with h1 | h1
    · exact absurd h1 (by decide)
    · rcases List.mem_append.mp h1 with h2 | h2
      · obtain ⟨k, hk⟩ := mem_pad2 h2
        exact digitChar_ne_slash k hk.symm
      · rw [List.mem_cons] at h2
        rcases h2 with h2 | h2
        · exact absurd h2 (by decide)
        · obtain ⟨k, hk⟩ := mem_pad2 h2
          exact digitChar_ne_slash k hk.symm

theorem slash_mem_fmtMd (m d : ℕ) : '/' ∈ fmtMd m d := by
  unfold fmtMd
  exact List.mem_append.mpr (Or.inr (List.mem_cons_self _ _))

theorem fmtMd_ne_fmtYmd (m d y m' d' : ℕ) : fmtMd m d ≠ fmtYmd y m' d' := by
  intro h
  exact slash_not_mem_fmtYmd y m' d' (h ▸ slash_mem_fmtMd m d)

/-- All keys of an association list are in `"%Y-%m-%d"` shape. -/
def YmdKeys (l : List (List Char × ForecastEntry)) : Prop :=
  ∀ kv ∈ l, ∃ y m d, kv.1 = fmtYmd y m d

theorem ymdKeys_upsertPeriod {l : List (List Char × ForecastEntry)} {p : Period}
    {y m d : ℕ} (hl : YmdKeys l) : YmdKeys (upsertPeriod (fmtYmd y m d) p l) := by
  induction l with
  | nil =>
    intro kv hkv
    unfold upsertPeriod at hkv
    rw [List.mem_singleton] at hkv
    exact ⟨y, m, d, by rw [hkv]⟩
  | cons hd tl ih =>
    intro kv hkv
    unfold upsertPeriod at hkv
    by_cases he : fmtYmd y m d = hd.1
    · rw [if_pos he] at hkv
      rw [List.mem_cons] at hkv
      rcases hkv with rfl | hkv
      · exact hl hd (List.mem_cons_self _ _)
      · exact hl kv (List.mem_cons_of_mem _ hkv)
    · rw [if_neg he] at hkv
      rw [List.mem_cons] at hkv
      rcases hkv with rfl | hkv
      · exact hl hd (List.mem_cons_self _ _)
      · exact ih (fun kv' hkv' => hl kv' (List.mem_cons_of_mem _ hkv')) kv hkv

theorem ymdKeys_foldl (periods : List Period) :
    ∀ acc : List (List Char × ForecastEntry), YmdKeys acc →
      YmdKeys (periods.foldl
        (fun acc p => upsertPeriod (fmtYmd p.year p.month p.day) p acc) acc) := by
  induction periods with
  | nil => intro acc h; exact h
  | cons p ps ih =>
    intro acc h
    exact ih _ (ymdKeys_upsertPeriod h)

theorem ymdKeys_get_nws_forecast (periods : List Period) :
    YmdKeys (get_nws_forecast periods) := by
  unfold get_nws_forecast
  intro kv hkv
  rw [List.mem_map] at hkv
  obtain ⟨kv', hkv', rfl⟩ := hkv
  exact ymdKeys_foldl periods [] (by intro x hx; simp at hx) kv' hkv'

theorem lookupKey_fmtMd_none {l : List (List Char × ForecastEntry)} (hl : YmdKeys l)
    (m d : ℕ) : lookupKey l (fmtMd m d) = none := by
  induction l with
  | nil => rfl
  | cons hd tl ih =>
    unfold lookupKey
    obtain ⟨y, m', d', hk⟩ := hl hd (List.mem_cons_self _ _)
    rw [if_neg (hk ▸ fmtMd_ne_fmtYmd m d y m' d')]
    exact ih (fun kv hkv => hl kv (List.mem_cons_of_mem _ hkv))

/-- C9: `get_nws_forecast` keys its daily forecasts by `"%Y-%m-%d"`,
while `calculate_future_hdd` looks days up under `"%m/%d"`; the `"%m/%d"`
key contains `'/'` and no `"%Y-%m-%d"` key does, so no lookup ever hits
and the function returns the empty list over any date range — it can
contribute no forecast-derived days. -/
theorem C9_future_hdd_empty (periods : List Period) (days : List Date) :
    calculate_future_hdd (get_nws_forecast periods) days = [] := by
  induction days with
  | nil => rfl
  | cons dt rest ih =>
    unfold calculate_future_hdd at ih ⊢
    rw [List.foldr_cons, ih,
      lookupKey_fmtMd_none (ymdKeys_get_nws_forecast periods) dt.month dt.day]

end ThermostatRender
